import Mathlib

/-!
# The-Ad-Revenue-Sentinel: verification of the analytical core

Shallow embedding, in Lean 4, of the core components of the
`The-Ad-Revenue-Sentinel` repository:

* `src/data_validation/validator.py` — the streaming `DataValidator`
  (per-user sliding click windows, rolling click-rate history, bot and
  spike alerts);
* `src/drift_monitoring/drift_detector.py` — the `DriftMonitor`
  (baseline snapshot, manual two-track drift detection, alert history);
* `src/causal_engine/causal_analysis.py` — `prepare_data` and
  `campaign_uplift_analysis`.

Python floats are modelled as exact rationals (`ℚ`).  The two places the
source compares a quotient involving a square root against a threshold
(`z_score > threshold` in `validate_click` and
`age_drift_score > 2.0` in `_manual_drift_detection`) are embedded in an
exact, computable squared form; the lemmas `div_sqrt_gt_iff` and
`abs_div_sqrt_gt_iff` below prove the squared form equivalent, over `ℝ`,
to the source's formulation for the positive thresholds used
(3.0 and 2.0).  The drift monitor is modelled with the EvidentlyAI
enrichment absent (`EVIDENTLY_AVAILABLE = False`), i.e. with the manual
two-track fallback that the code always runs.
-/

namespace AdSentinel

/-- Arithmetic mean of a list of rationals, `sum / len`
(`0` on the empty list, a case the analysed paths never reach). -/
def qmean (xs : List ℚ) : ℚ := xs.sum / xs.length

/-- Population variance (`numpy.std` squared, `ddof = 0`):
mean of squared deviations from the mean. -/
def popVar (xs : List ℚ) : ℚ :=
  (xs.map (fun x => (x - qmean xs) ^ 2)).sum / xs.length

/-- Sample variance (`pandas.Series.std` squared, `ddof = 1`):
sum of squared deviations divided by `len - 1`.  Only consulted for
lists of length ≥ 2 (pandas yields `NaN` below that, which the source's
`> 0` guards treat as false; the embedding keeps those cases `none` at
the call sites). -/
def sampleVar (xs : List ℚ) : ℚ :=
  (xs.map (fun x => (x - qmean xs) ^ 2)).sum / ((xs.length : ℚ) - 1)

/-- Python's trailing slice `xs[-k:]` for `k ≥ 1`: the last `k`
elements (all of them when the list is shorter). -/
def lastN (k : ℕ) (xs : List ℚ) : List ℚ := xs.drop (xs.length - k)

/-- Alert severity (`severity` strings of `ValidationAlert`). -/
inductive Severity where
  | low
  | medium
  | high
deriving DecidableEq, Repr

/-- Machine-readable `metadata` attached to validator alerts.  For
`click_spike` the source stores the float `z_score = (n - mean)/std`;
the embedding stores the exact pair `dev = n - mean` and
`var = std²`, which determine `z_score = dev / √var`, together with the
exact `current_rate` and `mean_rate`. -/
inductive AlertMeta where
  | botMeta (user_id : String) (clicks_in_window : ℕ) (time_window : ℚ)
  | spikeMeta (dev : ℚ) (var : ℚ) (current_rate : ℚ) (mean_rate : ℚ)
deriving DecidableEq, Repr

/-- A `ValidationAlert` as emitted by `DataValidator.validate_click`
(the random `alert_id` and the formatted `description` string carry no
decision content and are not modelled). -/
structure ValidationAlert where
  alert_type : String
  severity : Severity
  affected_events : List String
  metadata : AlertMeta
deriving DecidableEq, Repr

/-- An ad click event, with the fields `validate_click` reads.
Timestamps are rationals (seconds). -/
structure AdClick where
  event_id : String
  user_id : String
  timestamp : ℚ
deriving DecidableEq, Repr

/-- `DataValidator` configuration (`click_spike_threshold`,
`time_window_seconds`, `min_samples`). -/
structure ValidatorConfig where
  click_spike_threshold : ℚ
  time_window_seconds : ℚ
  min_samples : ℕ
deriving DecidableEq, Repr

/-- The source's constructor defaults. -/
def defaultConfig : ValidatorConfig :=
  { click_spike_threshold := 3
    time_window_seconds := 60
    min_samples := 10 }

/-- Mutable state of a `DataValidator`: the per-user click windows
(`defaultdict`, so every user id maps to a list, initially `[]`),
modelled as an association list read through `windowOf`, and the rolling
`historical_click_rates` list. -/
structure ValidatorState where
  user_clicks : List (String × List ℚ)
  historical_click_rates : List ℚ
deriving DecidableEq, Repr

/-- The window the `defaultdict` holds for user `u`: the stored list,
or `[]` for a user never seen. -/
def windowOf (st : ValidatorState) (u : String) : List ℚ :=
  (st.user_clicks.lookup u).getD []

/-- The freshly constructed validator. -/
def initialValidator : ValidatorState :=
  { user_clicks := []
    historical_click_rates := [] }

/-- The spike test of `validate_click`, in exact arithmetic.  The source
computes `std = √var` and fires when `std > 0 ∧ (n - mean)/std > t`;
for the positive threshold `t` this is equivalent (lemma
`div_sqrt_gt_iff`) to `0 < var ∧ 0 < n - mean ∧ t² · var < (n - mean)²`. -/
def spikeFires (t : ℚ) (dev v : ℚ) : Bool :=
  decide (0 < v) && decide (0 < dev) && decide (t ^ 2 * v < dev ^ 2)

/-- `DataValidator.validate_click`: appends the click's timestamp to the
user's window, evicts entries older than `timestamp - time_window_seconds`,
emits `bot_traffic` when the remaining window exceeds 10 entries, appends
the window size to `historical_click_rates`, and emits `click_spike`
when enough history exists and the z-score of the new rate against the
last 100 recorded rates exceeds the threshold.  Returns the alert list
and the updated state. -/
def validate_click (cfg : ValidatorConfig) (st : ValidatorState) (c : AdClick) :
    List ValidationAlert × ValidatorState :=
  let cutoff := c.timestamp - cfg.time_window_seconds
  let win :=
    (windowOf st c.user_id ++ [c.timestamp]).dropWhile (fun s => decide (s < cutoff))
  let n := win.length
  let botAlerts : List ValidationAlert :=
    if 10 < n then
      [{ alert_type := "bot_traffic"
         severity := .high
         affected_events := [c.event_id]
         metadata := .botMeta c.user_id n cfg.time_window_seconds }]
    else []
  let rates := st.historical_click_rates ++ [(n : ℚ)]
  let spikeAlerts : List ValidationAlert :=
    if cfg.min_samples ≤ rates.length then
      let recent := lastN 100 rates
      let m := qmean recent
      let v := popVar recent
      if spikeFires cfg.click_spike_threshold ((n : ℚ) - m) v then
        [{ alert_type := "click_spike"
           severity := .medium
           affected_events := [c.event_id]
           metadata := .spikeMeta ((n : ℚ) - m) v (n : ℚ) m }]
      else []
    else []
  (botAlerts ++ spikeAlerts,
   { user_clicks := (c.user_id, win) :: st.user_clicks
     historical_click_rates := rates })

/-- Bridge between the source's floating formulation of the spike test
and the exact squared form used in the embedding: for a positive
threshold, `√v > 0 ∧ d / √v > t` holds exactly when
`0 < v ∧ 0 < d ∧ t² v < d²`. -/
theorem div_sqrt_gt_iff (d v t : ℝ) (hv : 0 ≤ v) (ht : 0 < t) :
    (0 < Real.sqrt v ∧ t < d / Real.sqrt v) ↔
      (0 < v ∧ 0 < d ∧ t ^ 2 * v < d ^ 2) := by
  constructor
  · rintro ⟨hs, hz⟩
    have hvpos : 0 < v := by
      rcases lt_or_eq_of_le hv with h | h
      · exact h
      · exfalso; rw [← h, Real.sqrt_zero] at hs; exact lt_irrefl 0 hs
    have hd : 0 < d := by
      have h1 : 0 < d / Real.sqrt v := lt_trans ht hz
      have h2 := mul_pos h1 hs
      rwa [div_mul_cancel₀ d (ne_of_gt hs)] at h2
    refine ⟨hvpos, hd, ?_⟩
    have h3 : t * Real.sqrt v < d := (lt_div_iff₀ hs).mp hz
    have h0 : 0 ≤ t * Real.sqrt v := le_of_lt (mul_pos ht hs)
    have h4 : (t * Real.sqrt v) ^ 2 < d ^ 2 := by
      exact pow_lt_pow_left₀ h3 h0 (by norm_num)
    calc t ^ 2 * v = (t * Real.sqrt v) ^ 2 := by rw [mul_pow, Real.sq_sqrt hv]
      _ < d ^ 2 := h4
  · rintro ⟨hvpos, hd, hlt⟩
    have hs : 0 < Real.sqrt v := Real.sqrt_pos.mpr hvpos
    refine ⟨hs, ?_⟩
    rw [lt_div_iff₀ hs]
    nlinarith [Real.sq_sqrt hv, Real.sqrt_nonneg v, mul_pos ht hs,
      sq_nonneg (t * Real.sqrt v - d), sq_nonneg (t * Real.sqrt v + d)]

/-- Bridge for the numeric drift track: for a positive threshold,
`|d| / √v > t` (the source's `age_drift_score > 2.0` with
`std = √v > 0`) holds exactly when `t² v < d²`. -/
theorem abs_div_sqrt_gt_iff (d v t : ℝ) (hv : 0 < v) (ht : 0 < t) :
    t < |d| / Real.sqrt v ↔ t ^ 2 * v < d ^ 2 := by
  have hs : 0 < Real.sqrt v := Real.sqrt_pos.mpr hv
  rw [lt_div_iff₀ hs]
  constructor
  · intro h3
    have h0 : 0 ≤ t * Real.sqrt v := le_of_lt (mul_pos ht hs)
    have h4 : (t * Real.sqrt v) ^ 2 < |d| ^ 2 := by
      exact pow_lt_pow_left₀ h3 h0 (by norm_num)
    calc t ^ 2 * v = (t * Real.sqrt v) ^ 2 := by rw [mul_pow, Real.sq_sqrt (le_of_lt hv)]
      _ < d ^ 2 := by rwa [sq_abs] at h4
  · intro hlt
    nlinarith [Real.sq_sqrt (le_of_lt hv), Real.sqrt_nonneg v, mul_pos ht hs,
      abs_nonneg d, sq_abs d, sq_nonneg (t * Real.sqrt v - |d|),
      sq_nonneg (t * Real.sqrt v + |d|)]

/-! ## Drift Engine (`src/drift_monitoring/drift_detector.py`)

A pandas `DataFrame`, as consumed by `DriftMonitor`, is modelled by its
row list together with column-presence flags for the two columns the
manual drift tracks read (`user_age`, `device_type`); values are assumed
non-null (the repository's merged funnel tables carry concrete values).
The EvidentlyAI enrichment is modelled as absent
(`EVIDENTLY_AVAILABLE = False`): the manual two-track fallback always
runs and alone determines the result. -/

/-- One row of a merged funnel table, restricted to the columns the
drift monitor reads. -/
structure DriftRow where
  user_age : ℚ
  device_type : String
deriving DecidableEq, Repr

/-- A merged funnel table for the drift monitor: row list plus
column-presence flags (column membership in pandas is a property of the
table, not of a row). -/
structure DriftFrame where
  hasUserAge : Bool
  hasDeviceType : Bool
  rows : List DriftRow
deriving DecidableEq, Repr

/-- Normalized frequency of category `c` in the column values `vs`
(`value_counts(normalize=True)` plus the `.get(c, 0)` default: a `c`
absent from `vs` has frequency `0`, and the empty column's distribution
dict gives `0` everywhere). -/
def pct (vs : List String) (c : String) : ℚ := (vs.count c : ℚ) / vs.length

/-- The categorical shift score of `_manual_drift_detection`: sum of
`|currentPct - baselinePct|` over the union of the categories seen on
either side (the Python `set(cur_keys + base_keys)` loop; categories
outside the union contribute `0` on both sides). -/
def tvDist (cur base : List String) : ℚ :=
  (((cur ++ base).dedup).map (fun c => |pct cur c - pct base c|)).sum

/-- `DriftMonitor.baseline_stats`, restricted to the entries the manual
drift tracks read.  `age_mean` is `none` exactly when the baseline lacks
a `user_age` column (the Python `None`); `age_var` is the squared
`pandas` sample std, `none` when the column is absent or has fewer than
2 rows (pandas `NaN`, which the `> 0` guard treats as false).
`device_vals` is the `device_type` column snapshot ( `[]` when the
column is absent), from which the stored normalized distribution dict is
derived; that dict is non-empty, i.e. truthy, iff `device_vals ≠ []`. -/
structure BaselineStats where
  age_mean : Option ℚ
  age_var : Option ℚ
  device_vals : List String
  sample_size : ℕ
deriving DecidableEq, Repr

/-- The baseline statistics `set_baseline` computes from a table. -/
def computeStats (d : DriftFrame) : BaselineStats :=
  { age_mean :=
      if d.hasUserAge then some (qmean (d.rows.map (·.user_age))) else none
    age_var :=
      if d.hasUserAge ∧ 2 ≤ d.rows.length then
        some (sampleVar (d.rows.map (·.user_age))) else none
    device_vals := if d.hasDeviceType then d.rows.map (·.device_type) else []
    sample_size := d.rows.length }

/-- The record `_manual_drift_detection` stores under
`manual_drift_checks['user_age']`.  The source stores the float
`drift_score = |cur_mean - base_mean| / base_std`; the embedding keeps
the exact pair `dev = cur_mean - base_mean` and `var = base_std²`
(`drift_score = |dev| / √var`), and `drifted` in the equivalent squared
form `2² · var < dev²` (lemma `abs_div_sqrt_gt_iff`). -/
structure AgeCheck where
  dev : ℚ
  var : ℚ
  drifted : Bool
deriving DecidableEq, Repr

/-- The record stored under `manual_drift_checks['device_type']`:
the exact shift score and the `score > 0.3` verdict. -/
structure DeviceCheck where
  score : ℚ
  drifted : Bool
deriving DecidableEq, Repr

/-- Result of `_manual_drift_detection`: the two per-feature check
records (absent when the track is skipped) and the accumulated
`drifted_features` list (the `drifted_features` / `drift_detected` keys
are present in the Python dict iff this list is non-empty). -/
structure ManualResults where
  age_check : Option AgeCheck
  device_check : Option DeviceCheck
  drifted_features : List String
deriving DecidableEq, Repr

/-- The numeric `user_age` track of `_manual_drift_detection`: runs when
the current table has the column and the baseline mean is not `None`;
records a check only when the baseline std is positive (the check's
`drifted` flag is the squared form of `|cur_mean - base_mean|/std > 2`). -/
def ageCheckOf (stats : BaselineStats) (cur : DriftFrame) : Option AgeCheck :=
  if cur.hasUserAge ∧ stats.age_mean.isSome then
    match stats.age_var with
    | some v =>
      if 0 < v then
        let dev := qmean (cur.rows.map (·.user_age)) - stats.age_mean.getD 0
        some { dev := dev, var := v, drifted := decide (2 ^ 2 * v < dev ^ 2) }
      else none
    | none => none
  else none

/-- The categorical `device_type` track of `_manual_drift_detection`:
runs when the current table has the column and the stored baseline
distribution is non-empty. -/
def devCheckOf (stats : BaselineStats) (cur : DriftFrame) : Option DeviceCheck :=
  if cur.hasDeviceType ∧ stats.device_vals ≠ [] then
    let score := tvDist (cur.rows.map (·.device_type)) stats.device_vals
    some { score := score, drifted := decide ((3 : ℚ) / 10 < score) }
  else none

/-- The `drifted_features` list accumulated by
`_manual_drift_detection`: `user_age` first, then `device_type`, each
present iff its track ran and fired. -/
def featuresOf (ac : Option AgeCheck) (dc : Option DeviceCheck) : List String :=
  (match ac with
   | some c => if c.drifted then ["user_age"] else []
   | none => []) ++
  (match dc with
   | some c => if c.drifted then ["device_type"] else []
   | none => [])

/-- `DriftMonitor._manual_drift_detection`: the numeric `user_age` track
followed by the categorical `device_type` track. -/
def manual_drift_detection (stats : BaselineStats) (cur : DriftFrame) :
    ManualResults :=
  { age_check := ageCheckOf stats cur
    device_check := devCheckOf stats cur
    drifted_features := featuresOf (ageCheckOf stats cur) (devCheckOf stats cur) }

/-- The two recoverable error results of `detect_drift`. -/
inductive DriftError where
  | noBaseline
  | emptyInput
deriving DecidableEq, Repr

/-- `detect_drift`'s returned dictionary, restricted to the keys the
manual (Evidently-absent) path writes. -/
structure DriftResult where
  error : Option DriftError
  drift_detected : Bool
  drifted_features : List String
  age_check : Option AgeCheck
  device_check : Option DeviceCheck
deriving DecidableEq, Repr

/-- A `data_drift` alert appended to `DriftMonitor.drift_alerts`
(the timestamp-derived `alert_id` and formatted description carry no
decision content and are not modelled). -/
structure DriftAlert where
  severity : Severity
  drifted_features : List String
deriving DecidableEq, Repr

/-- Mutable state of a `DriftMonitor`. -/
structure MonitorState where
  baseline_data : Option DriftFrame
  baseline_stats : BaselineStats
  drift_alerts : List DriftAlert
deriving DecidableEq, Repr

/-- The freshly constructed monitor (`baseline_data = None`,
`baseline_stats = {}`, `drift_alerts = []`); the empty stats dict is
represented by all-absent entries, never read before `set_baseline`. -/
def initialMonitor : MonitorState :=
  { baseline_data := none
    baseline_stats := { age_mean := none, age_var := none, device_vals := [], sample_size := 0 }
    drift_alerts := [] }

/-- `DriftMonitor.set_baseline`: stores a copy of the table and the
computed baseline statistics; the alert history is untouched. -/
def set_baseline (st : MonitorState) (d : DriftFrame) : MonitorState :=
  { baseline_data := some d
    baseline_stats := computeStats d
    drift_alerts := st.drift_alerts }

/-- `DriftMonitor.detect_drift` (Evidently absent): the early "no
baseline" result when the baseline is unset **or empty**, the early
"empty input" result when the current table is empty; otherwise the
manual two-track detection, with `drift_detected` true iff some feature
drifted, and a `data_drift` alert (severity `high` when more than 3
features drifted, else `medium`) appended to the history exactly when
drift is detected. -/
def detect_drift (st : MonitorState) (cur : DriftFrame) :
    DriftResult × MonitorState :=
  match st.baseline_data with
  | none =>
      ({ error := some .noBaseline, drift_detected := false,
         drifted_features := [], age_check := none, device_check := none }, st)
  | some b =>
      if b.rows = [] then
        ({ error := some .noBaseline, drift_detected := false,
           drifted_features := [], age_check := none, device_check := none }, st)
      else if cur.rows = [] then
        ({ error := some .emptyInput, drift_detected := false,
           drifted_features := [], age_check := none, device_check := none }, st)
      else
        let m := manual_drift_detection st.baseline_stats cur
        let detected : Bool := decide (m.drifted_features ≠ [])
        let res : DriftResult :=
          { error := none
            drift_detected := detected
            drifted_features := m.drifted_features
            age_check := m.age_check
            device_check := m.device_check }
        let st' : MonitorState :=
          if detected then
            { st with drift_alerts := st.drift_alerts ++
                [{ severity := if 3 < m.drifted_features.length then .high else .medium
                   drifted_features := m.drifted_features }] }
          else st
        (res, st')

/-- `DriftMonitor.get_drift_alerts`: the Python slice
`self.drift_alerts[-limit:]` — for `limit ≥ 1` the last `limit` alerts
in order, but for `limit = 0` the slice `[-0:] = [0:]` is the **whole**
history. -/
def get_drift_alerts (st : MonitorState) (limit : ℕ) : List DriftAlert :=
  if limit = 0 then st.drift_alerts
  else st.drift_alerts.drop (st.drift_alerts.length - limit)

/-! ## Causal Engine (`src/causal_engine/causal_analysis.py`) -/

/-- An impression record, restricted to the key `prepare_data` joins on. -/
structure ImpressionRow where
  event_id : String
deriving DecidableEq, Repr

/-- A click record, restricted to the foreign key `prepare_data` reads. -/
structure ClickRow where
  impression_id : String
deriving DecidableEq, Repr

/-- A conversion record, restricted to what `prepare_data` reads. -/
structure ConversionRow where
  impression_id : String
  revenue : ℚ
deriving DecidableEq, Repr

/-- One row of the merged funnel table `prepare_data` returns. -/
structure MergedRow where
  event_id : String
  clicked : ℕ
  revenue : ℚ
deriving DecidableEq, Repr

/-- The `clicked` column of `prepare_data`: the `isin` membership test
when both impressions and clicks are non-empty, the scalar `0`
otherwise. -/
def clickedOf (imps : List ImpressionRow) (clicks : List ClickRow)
    (i : ImpressionRow) : ℕ :=
  if clicks ≠ [] ∧ imps ≠ [] then
    if i.event_id ∈ clicks.map (·.impression_id) then 1 else 0
  else 0

/-- The `revenue` column of `prepare_data`: when both impressions and
conversions are non-empty, the left join against conversions grouped by
`impression_id` with summed revenue, `fillna(0)` for unmatched rows;
otherwise the synthesized zero column. -/
def revenueOf (imps : List ImpressionRow) (convs : List ConversionRow)
    (i : ImpressionRow) : ℚ :=
  if convs ≠ [] ∧ imps ≠ [] then
    let matching := convs.filter (fun c => c.impression_id = i.event_id)
    if matching = [] then 0 else (matching.map (·.revenue)).sum
  else 0

/-- `CausalEngine.prepare_data`: one output row per impression, with the
derived `clicked` and `revenue` columns. -/
def prepare_data (imps : List ImpressionRow) (clicks : List ClickRow)
    (convs : List ConversionRow) : List MergedRow :=
  imps.map (fun i =>
    { event_id := i.event_id
      clicked := clickedOf imps clicks i
      revenue := revenueOf imps convs i })

/-- One row of a merged funnel table as read by
`campaign_uplift_analysis`.  The `campaign_id` and `revenue` columns are
always present on the tables this operation consumes (a table lacking
them would abort into the generic `except` error result); the `clicked`
column is optional and its presence is a table-level flag below. -/
structure CampaignRow where
  campaign_id : String
  clicked : ℚ
  revenue : ℚ
deriving DecidableEq, Repr

/-- A merged funnel table for `campaign_uplift_analysis`: row list plus
the presence flag of the optional `clicked` column. -/
structure CampaignTable where
  hasClicked : Bool
  rows : List CampaignRow
deriving DecidableEq, Repr

/-- The result dictionary of `campaign_uplift_analysis`: either an
`error` entry alone, or the campaign metrics with the uplift entries
present only when a baseline campaign with matching rows was supplied. -/
structure UpliftResult where
  error : Option String
  campaign_id : String := ""
  total_impressions : ℕ := 0
  total_clicks : ℚ := 0
  total_revenue : ℚ := 0
  avg_revenue_per_impression : ℚ := 0
  click_through_rate : ℚ := 0
  baseline_campaign_id : Option String := none
  baseline_avg_revenue : Option ℚ := none
  uplift_absolute : Option ℚ := none
  uplift_percentage : Option ℚ := none
deriving DecidableEq, Repr

/-- `CausalEngine.campaign_uplift_analysis`: error results for an empty
table or an unmatched target campaign; otherwise the target campaign's
metrics (clicks falling back to `0` when the `clicked` column is
absent), extended with the uplift block when a truthy baseline campaign
id is supplied and matches at least one row (`if baseline_campaign_id:`
is Python truthiness, so the empty string counts as unsupplied). -/
def campaign_uplift_analysis (t : CampaignTable) (campaign_id : String)
    (baseline_campaign_id : Option String) : UpliftResult :=
  if t.rows = [] then { error := some "No data available" }
  else
    let cdata := t.rows.filter (fun r => r.campaign_id = campaign_id)
    if cdata = [] then { error := some "No data for campaign" }
    else
      let base : UpliftResult :=
        { error := none
          campaign_id := campaign_id
          total_impressions := cdata.length
          total_clicks := if t.hasClicked then (cdata.map (·.clicked)).sum else 0
          total_revenue := (cdata.map (·.revenue)).sum
          avg_revenue_per_impression := qmean (cdata.map (·.revenue))
          click_through_rate := if t.hasClicked then qmean (cdata.map (·.clicked)) else 0 }
      match baseline_campaign_id with
      | none => base
      | some b =>
          if b = "" then base
          else
            let bdata := t.rows.filter (fun r => r.campaign_id = b)
            if bdata = [] then base
            else
              let baseline_revenue := qmean (bdata.map (·.revenue))
              let campaign_revenue := qmean (cdata.map (·.revenue))
              { base with
                baseline_campaign_id := some b
                baseline_avg_revenue := some baseline_revenue
                uplift_absolute := some (campaign_revenue - baseline_revenue)
                uplift_percentage := some
                  (if 0 < baseline_revenue then
                    (campaign_revenue / baseline_revenue - 1) * 100 else 0) }

/-! ## Supporting lemmas -/

/-- The population variance is never negative. -/
theorem popVar_nonneg (xs : List ℚ) : 0 ≤ popVar xs := by
  unfold popVar
  apply div_nonneg
  · apply List.sum_nonneg
    intro x hx
    obtain ⟨y, _, rfl⟩ := List.mem_map.mp hx
    positivity
  · positivity

/-- The computable squared spike test agrees with the source's
floating-point formulation `std > 0 ∧ (n - mean)/std > t` for a
positive threshold and non-negative variance. -/
theorem spikeFires_iff_real (t dev v : ℚ) (hv : 0 ≤ v) (ht : 0 < t) :
    spikeFires t dev v = true ↔
      (0 < Real.sqrt (v : ℝ) ∧ (t : ℝ) < (dev : ℝ) / Real.sqrt (v : ℝ)) := by
  rw [div_sqrt_gt_iff (dev : ℝ) (v : ℝ) (t : ℝ) (by exact_mod_cast hv) (by exact_mod_cast ht)]
  simp only [spikeFires, Bool.and_eq_true, decide_eq_true_eq]
  constructor
  · rintro ⟨⟨h1, h2⟩, h3⟩
    refine ⟨by exact_mod_cast h1, by exact_mod_cast h2, by exact_mod_cast h3⟩
  · rintro ⟨h1, h2, h3⟩
    exact ⟨⟨by exact_mod_cast h1, by exact_mod_cast h2⟩, by exact_mod_cast h3⟩

/-! ## Concrete scenario data -/

/-- A click from user `u` at second `k`. -/
def clickAt (k : ℚ) : AdClick := { event_id := "e", user_id := "u", timestamp := k }

/-- Eleven clicks from one user, at seconds 0 through 10 (all inside a
60-second window). -/
def elevenClicks : List AdClick :=
  [clickAt 0, clickAt 1, clickAt 2, clickAt 3, clickAt 4, clickAt 5,
   clickAt 6, clickAt 7, clickAt 8, clickAt 9, clickAt 10]

/-- Feed a click sequence through a fresh `DataValidator`; the first
component is the alert list returned by the final `validate_click` call. -/
def runValidator (cs : List AdClick) : List ValidationAlert × ValidatorState :=
  cs.foldl (fun acc c => validate_click defaultConfig acc.2 c) ([], initialValidator)

/-- A validator state about to produce a click spike: one user with
five clicks in the current window, and ten recorded rates of `1`. -/
def spikeState : ValidatorState :=
  { user_clicks := [("u", [0, 0, 0, 0, 0])]
    historical_click_rates := [1, 1, 1, 1, 1, 1, 1, 1, 1, 1] }

/-! ## Claim theorems -/

/-- **C1.** Every `validate_click` call appends the post-eviction window
size `n` to the historical rate history unconditionally; and whenever
the history including the current entry has length ≥ 10, the call emits
a `click_spike` alert (severity medium, metadata carrying the data of
`z_score` together with `current_rate` and `mean_rate`) exactly when the
standard deviation of the last 100 recorded rates is positive and
`z = (n - mean)/std` exceeds 3. -/
theorem validate_click_spike (st : ValidatorState) (c : AdClick) (n : ℕ)
    (hn : n = ((windowOf st c.user_id ++ [c.timestamp]).dropWhile
      (fun s => decide (s < c.timestamp - 60))).length)
    (rates : List ℚ) (hr : rates = st.historical_click_rates ++ [(n : ℚ)])
    (m v : ℚ) (hm : m = qmean (lastN 100 rates)) (hv : v = popVar (lastN 100 rates)) :
    (validate_click defaultConfig st c).2.historical_click_rates = rates ∧
    (10 ≤ rates.length →
      ((∃ a ∈ (validate_click defaultConfig st c).1, a.alert_type = "click_spike") ↔
        (0 < Real.sqrt (v : ℝ) ∧
          (3 : ℝ) < ((((n : ℚ) - m : ℚ)) : ℝ) / Real.sqrt (v : ℝ))) ∧
      ((∃ a ∈ (validate_click defaultConfig st c).1, a.alert_type = "click_spike") →
        ({ alert_type := "click_spike", severity := .medium,
           affected_events := [c.event_id],
           metadata := .spikeMeta ((n : ℚ) - m) v (n : ℚ) m } : ValidationAlert)
          ∈ (validate_click defaultConfig st c).1)) := by
  subst hn hr hm hv
  constructor
  · rfl
  · intro h10
    have hbridge := spikeFires_iff_real 3
      ((((windowOf st c.user_id ++ [c.timestamp]).dropWhile
          (fun s => decide (s < c.timestamp - 60))).length : ℚ) -
        qmean (lastN 100 (st.historical_click_rates ++
          [(((windowOf st c.user_id ++ [c.timestamp]).dropWhile
            (fun s => decide (s < c.timestamp - 60))).length : ℚ)])))
      (popVar (lastN 100 (st.historical_click_rates ++
          [(((windowOf st c.user_id ++ [c.timestamp]).dropWhile
            (fun s => decide (s < c.timestamp - 60))).length : ℚ)])))
      (popVar_nonneg _) (by norm_num)
    rw [show (((3 : ℚ) : ℝ)) = (3 : ℝ) from by norm_num] at hbridge
    rw [← hbridge]
    have hmem : ∀ hfires : spikeFires 3
        ((((windowOf st c.user_id ++ [c.timestamp]).dropWhile
            (fun s => decide (s < c.timestamp - 60))).length : ℚ) -
          qmean (lastN 100 (st.historical_click_rates ++
            [(((windowOf st c.user_id ++ [c.timestamp]).dropWhile
              (fun s => decide (s < c.timestamp - 60))).length : ℚ)])))
        (popVar (lastN 100 (st.historical_click_rates ++
            [(((windowOf st c.user_id ++ [c.timestamp]).dropWhile
              (fun s => decide (s < c.timestamp - 60))).length : ℚ)]))) = true,
        ({ alert_type := "click_spike", severity := .medium,
           affected_events := [c.event_id],
           metadata := .spikeMeta
             ((((windowOf st c.user_id ++ [c.timestamp]).dropWhile
                 (fun s => decide (s < c.timestamp - 60))).length : ℚ) -
               qmean (lastN 100 (st.historical_click_rates ++
                 [(((windowOf st c.user_id ++ [c.timestamp]).dropWhile
                   (fun s => decide (s < c.timestamp - 60))).length : ℚ)])))
             (popVar (lastN 100 (st.historical_click_rates ++
                 [(((windowOf st c.user_id ++ [c.timestamp]).dropWhile
                   (fun s => decide (s < c.timestamp - 60))).length : ℚ)])))
             (((windowOf st c.user_id ++ [c.timestamp]).dropWhile
                 (fun s => decide (s < c.timestamp - 60))).length : ℚ)
             (qmean (lastN 100 (st.historical_click_rates ++
               [(((windowOf st c.user_id ++ [c.timestamp]).dropWhile
                 (fun s => decide (s < c.timestamp - 60))).length : ℚ)]))) } :
          ValidationAlert)
          ∈ (validate_click defaultConfig st c).1 := by
      intro hfires
      unfold validate_click
      simp only [defaultConfig]
      apply List.mem_append.mpr
      right
      rw [if_pos h10, if_pos hfires]
      exact List.mem_singleton.mpr rfl
    have hfwd : (∃ a ∈ (validate_click defaultConfig st c).1,
        a.alert_type = "click_spike") → spikeFires 3
        ((((windowOf st c.user_id ++ [c.timestamp]).dropWhile
            (fun s => decide (s < c.timestamp - 60))).length : ℚ) -
          qmean (lastN 100 (st.historical_click_rates ++
            [(((windowOf st c.user_id ++ [c.timestamp]).dropWhile
              (fun s => decide (s < c.timestamp - 60))).length : ℚ)])))
        (popVar (lastN 100 (st.historical_click_rates ++
            [(((windowOf st c.user_id ++ [c.timestamp]).dropWhile
              (fun s => decide (s < c.timestamp - 60))).length : ℚ)]))) = true := by
      rintro ⟨a, ha, hty⟩
      unfold validate_click at ha
      simp only [defaultConfig] at ha
      rcases List.mem_append.mp ha with h | h
      · exfalso
        split at h
        · rw [List.mem_singleton.mp h] at hty
          dsimp only at hty
          exact absurd hty (by decide)
        · exact List.not_mem_nil a h
      · rw [if_pos h10] at h
        split at h
        · next hfires => exact hfires
        · exact absurd h (List.not_mem_nil a)
    exact ⟨⟨fun he => hfwd he, fun hfires => ⟨_, hmem hfires, rfl⟩⟩,
      fun he => hmem (hfwd he)⟩

/-- **C2.** For every validator state and click, `validate_click`
returns a `bot_traffic` alert (severity high, metadata carrying
`clicks_in_window` and `time_window`) exactly when the user's window —
after appending the click's timestamp and evicting entries older than
`timestamp - 60` — holds strictly more than 10 entries; and on the 11th
click of the same user within a 60-second window the 11th call emits
the alert, while 10 clicks emit none. -/
theorem validate_click_bot_traffic (st : ValidatorState) (c : AdClick) (n : ℕ)
    (hn : n = ((windowOf st c.user_id ++ [c.timestamp]).dropWhile
      (fun s => decide (s < c.timestamp - 60))).length) :
    ((∃ a ∈ (validate_click defaultConfig st c).1, a.alert_type = "bot_traffic") ↔ 10 < n) ∧
    (10 < n →
      ({ alert_type := "bot_traffic", severity := .high, affected_events := [c.event_id],
         metadata := .botMeta c.user_id n 60 } : ValidationAlert)
        ∈ (validate_click defaultConfig st c).1) ∧
    (runValidator elevenClicks).1 =
      [{ alert_type := "bot_traffic", severity := .high, affected_events := ["e"],
         metadata := .botMeta "u" 11 60 }] ∧
    (∀ a ∈ (runValidator (elevenClicks.take 10)).1, a.alert_type ≠ "bot_traffic") := by
  subst hn
  have hbot : 10 < ((windowOf st c.user_id ++ [c.timestamp]).dropWhile
      (fun s => decide (s < c.timestamp - 60))).length →
      ({ alert_type := "bot_traffic", severity := .high, affected_events := [c.event_id],
         metadata := .botMeta c.user_id
           ((windowOf st c.user_id ++ [c.timestamp]).dropWhile
             (fun s => decide (s < c.timestamp - 60))).length 60 } : ValidationAlert)
        ∈ (validate_click defaultConfig st c).1 := by
    intro hlt
    unfold validate_click
    simp only [defaultConfig]
    apply List.mem_append.mpr
    left
    rw [if_pos hlt]
    exact List.mem_singleton.mpr rfl
  refine ⟨⟨?_, fun hlt => ⟨_, hbot hlt, rfl⟩⟩, hbot,
    by norm_num [runValidator, elevenClicks, clickAt, validate_click, windowOf,
      initialValidator, defaultConfig, lastN, qmean, popVar, spikeFires, List.dropWhile],
    by norm_num [runValidator, elevenClicks, clickAt, validate_click, windowOf,
      initialValidator, defaultConfig, lastN, qmean, popVar, spikeFires, List.dropWhile]⟩
  rintro ⟨a, ha, hty⟩
  unfold validate_click at ha
  simp only [defaultConfig] at ha
  rcases List.mem_append.mp ha with h | h
  · by_cases hlt : 10 < ((windowOf st c.user_id ++ [c.timestamp]).dropWhile
        (fun s => decide (s < c.timestamp - 60))).length
    · exact hlt
    · rw [if_neg hlt] at h
      exact absurd h (List.not_mem_nil a)
  · exfalso
    split at h
    · split at h
      · rw [List.mem_singleton.mp h] at hty
        dsimp only at hty
        exact absurd hty (by decide)
      · exact List.not_mem_nil a h
    · exact List.not_mem_nil a h


/-- The categorical distance of a distribution to itself is zero. -/
theorem tvDist_self (vs : List String) : tvDist vs vs = 0 := by
  unfold tvDist
  rw [List.sum_eq_zero]
  intro x hx
  obtain ⟨c, _, rfl⟩ := List.mem_map.mp hx
  simp

/-- Unfolding of the device track when it runs. -/
theorem devCheckOf_eq (stats : BaselineStats) (cur : DriftFrame)
    (h1 : cur.hasDeviceType = true) (h2 : stats.device_vals ≠ []) :
    devCheckOf stats cur =
      some { score := tvDist (cur.rows.map (·.device_type)) stats.device_vals
             drifted := decide ((3 : ℚ) / 10 <
               tvDist (cur.rows.map (·.device_type)) stats.device_vals) } := by
  unfold devCheckOf
  rw [if_pos ⟨h1, h2⟩]

/-- `user_age` is never absent from the front of `featuresOf` in a way
that could introduce `device_type`: membership of `device_type` in the
accumulated feature list is decided by the device check alone. -/
theorem featuresOf_device_mem (ac : Option AgeCheck) (dc : Option DeviceCheck) :
    ("device_type" ∈ featuresOf ac dc ↔
      ∃ c, dc = some c ∧ c.drifted = true) := by
  unfold featuresOf
  constructor
  · intro hmem
    rcases List.mem_append.mp hmem with h | h
    · exfalso
      split at h
      · split at h
        · exact absurd (List.mem_singleton.mp h) (by decide)
        · exact List.not_mem_nil _ h
      · exact List.not_mem_nil _ h
    · cases dc with
      | none => exact absurd h (List.not_mem_nil _)
      | some c =>
          dsimp only at h
          split at h
          · next hdr => exact ⟨c, rfl, hdr⟩
          · exact absurd h (List.not_mem_nil _)
  · rintro ⟨c, rfl, hdr⟩
    apply List.mem_append.mpr
    right
    dsimp only
    rw [if_pos hdr]
    exact List.mem_singleton.mpr rfl

/-- Unfolding of the device track of `_manual_drift_detection` when the
current table has the column and the baseline distribution is
non-empty. -/
theorem manual_device_check (stats : BaselineStats) (cur : DriftFrame)
    (h1 : cur.hasDeviceType = true) (h2 : stats.device_vals ≠ []) :
    (manual_drift_detection stats cur).device_check =
      some { score := tvDist (cur.rows.map (·.device_type)) stats.device_vals
             drifted := decide ((3 : ℚ) / 10 <
               tvDist (cur.rows.map (·.device_type)) stats.device_vals) } := by
  show devCheckOf stats cur = _
  exact devCheckOf_eq stats cur h1 h2

/-- `device_type` is listed among the drifted features of
`_manual_drift_detection` exactly when the device track ran and fired. -/
theorem manual_device_mem (stats : BaselineStats) (cur : DriftFrame)
    (h1 : cur.hasDeviceType = true) (h2 : stats.device_vals ≠ []) :
    ("device_type" ∈ (manual_drift_detection stats cur).drifted_features ↔
      (3 : ℚ) / 10 < tvDist (cur.rows.map (·.device_type)) stats.device_vals) := by
  show "device_type" ∈ featuresOf (ageCheckOf stats cur) (devCheckOf stats cur) ↔ _
  rw [featuresOf_device_mem, devCheckOf_eq stats cur h1 h2]
  constructor
  · rintro ⟨c, heq, hdr⟩
    obtain rfl : _ = c := Option.some.inj heq
    exact of_decide_eq_true hdr
  · intro hgt
    exact ⟨_, rfl, decide_eq_true hgt⟩

/-- Unfolding of `detect_drift` on the non-degenerate path (a non-empty
baseline is set and the current table is non-empty): no error, the
result fields come from `_manual_drift_detection`, and an alert is
appended exactly when a feature drifted. -/
theorem detect_drift_run (st : MonitorState) (b cur : DriftFrame)
    (hb : st.baseline_data = some b) (hbne : b.rows ≠ []) (hcne : cur.rows ≠ []) :
    detect_drift st cur =
      ({ error := none
         drift_detected := decide
           ((manual_drift_detection st.baseline_stats cur).drifted_features ≠ [])
         drifted_features := (manual_drift_detection st.baseline_stats cur).drifted_features
         age_check := (manual_drift_detection st.baseline_stats cur).age_check
         device_check := (manual_drift_detection st.baseline_stats cur).device_check },
       if decide ((manual_drift_detection st.baseline_stats cur).drifted_features ≠ []) = true then
         { st with drift_alerts := st.drift_alerts ++
             [{ severity := if 3 <
                   (manual_drift_detection st.baseline_stats cur).drifted_features.length
                 then .high else .medium
                drifted_features :=
                  (manual_drift_detection st.baseline_stats cur).drifted_features }] }
       else st) := by
  unfold detect_drift
  rw [hb]
  simp only [if_neg hbne, if_neg hcne]

/-- A merged-table row with the given device type (age irrelevant). -/
def dRow (s : String) : DriftRow := { user_age := 0, device_type := s }

/-- Baseline table of the categorical-drift scenario: `device_type`
distribution `{mobile: 0.6, desktop: 0.3, tablet: 0.1}` over 10 rows. -/
def deviceBase : DriftFrame :=
  { hasUserAge := false
    hasDeviceType := true
    rows := [dRow "mobile", dRow "mobile", dRow "mobile", dRow "mobile", dRow "mobile",
             dRow "mobile", dRow "desktop", dRow "desktop", dRow "desktop", dRow "tablet"] }

/-- Current table of the categorical-drift scenario: distribution
`{mobile: 0.1, desktop: 0.6, tablet: 0.3}` over 10 rows. -/
def deviceCur : DriftFrame :=
  { hasUserAge := false
    hasDeviceType := true
    rows := [dRow "mobile", dRow "desktop", dRow "desktop", dRow "desktop", dRow "desktop",
             dRow "desktop", dRow "desktop", dRow "tablet", dRow "tablet", dRow "tablet"] }

/-- **C3.** For every baseline table and non-empty current table that
both carry `device_type`, the categorical track of `detectDrift`
records the drift score `Σ |currentPct - baselinePct|` over the union
of categories (absent side counted 0, via `pct` being 0 off-support)
and lists `device_type` in `drifted_features` exactly when that score
exceeds 0.3; in the spec's scenario (baseline 0.6/0.3/0.1 against
current 0.1/0.6/0.3) the score is 1 and `device_type` is reported. -/
theorem detect_drift_device_type (st0 : MonitorState) (b cur : DriftFrame)
    (hbne : b.rows ≠ []) (hcne : cur.rows ≠ [])
    (hbd : b.hasDeviceType = true) (hcd : cur.hasDeviceType = true)
    (score : ℚ)
    (hs : score = tvDist (cur.rows.map (·.device_type)) (b.rows.map (·.device_type))) :
    (detect_drift (set_baseline st0 b) cur).1.device_check =
      some { score := score, drifted := decide ((3 : ℚ) / 10 < score) } ∧
    ("device_type" ∈ (detect_drift (set_baseline st0 b) cur).1.drifted_features ↔
      (3 : ℚ) / 10 < score) ∧
    tvDist (deviceCur.rows.map (·.device_type)) (deviceBase.rows.map (·.device_type)) = 1 ∧
    "device_type" ∈
      (detect_drift (set_baseline initialMonitor deviceBase) deviceCur).1.drifted_features := by
  subst hs
  have hdv : (set_baseline st0 b).baseline_stats.device_vals = b.rows.map (·.device_type) := by
    show (computeStats b).device_vals = _
    simp [computeStats, hbd]
  have hdvne : (set_baseline st0 b).baseline_stats.device_vals ≠ [] := by
    rw [hdv]
    simpa using hbne
  have htv : tvDist (deviceCur.rows.map (·.device_type))
      (deviceBase.rows.map (·.device_type)) = 1 := by
    have hcv : deviceCur.rows.map (·.device_type) =
        ["mobile", "desktop", "desktop", "desktop", "desktop", "desktop", "desktop",
         "tablet", "tablet", "tablet"] := rfl
    have hbv : deviceBase.rows.map (·.device_type) =
        ["mobile", "mobile", "mobile", "mobile", "mobile", "mobile", "desktop",
         "desktop", "desktop", "tablet"] := rfl
    rw [hcv, hbv]
    have hd : ((["mobile", "desktop", "desktop", "desktop", "desktop", "desktop", "desktop",
        "tablet", "tablet", "tablet"] : List String) ++
        ["mobile", "mobile", "mobile", "mobile", "mobile", "mobile", "desktop",
         "desktop", "desktop", "tablet"]).dedup = ["mobile", "desktop", "tablet"] := by decide
    unfold tvDist
    rw [hd]
    simp only [List.map_cons, List.map_nil, List.sum_cons, List.sum_nil, pct]
    norm_num [show (["mobile", "desktop", "desktop", "desktop", "desktop", "desktop",
        "desktop", "tablet", "tablet", "tablet"] : List String).count "mobile" = 1 from by decide,
      show (["mobile", "desktop", "desktop", "desktop", "desktop", "desktop",
        "desktop", "tablet", "tablet", "tablet"] : List String).count "desktop" = 6 from by decide,
      show (["mobile", "desktop", "desktop", "desktop", "desktop", "desktop",
        "desktop", "tablet", "tablet", "tablet"] : List String).count "tablet" = 3 from by decide,
      show (["mobile", "mobile", "mobile", "mobile", "mobile", "mobile", "desktop",
        "desktop", "desktop", "tablet"] : List String).count "mobile" = 6 from by decide,
      show (["mobile", "mobile", "mobile", "mobile", "mobile", "mobile", "desktop",
        "desktop", "desktop", "tablet"] : List String).count "desktop" = 3 from by decide,
      show (["mobile", "mobile", "mobile", "mobile", "mobile", "mobile", "desktop",
        "desktop", "desktop", "tablet"] : List String).count "tablet" = 1 from by decide,
      show (["mobile", "desktop", "desktop", "desktop", "desktop", "desktop",
        "desktop", "tablet", "tablet", "tablet"] : List String).length = 10 from by decide,
      show (["mobile", "mobile", "mobile", "mobile", "mobile", "mobile", "desktop",
        "desktop", "desktop", "tablet"] : List String).length = 10 from by decide,
      abs_of_nonneg]
  refine ⟨?_, ?_, htv, ?_⟩
  · simp only [detect_drift_run (set_baseline st0 b) b cur rfl hbne hcne]
    rw [manual_device_check _ _ hcd hdvne, hdv]
  · simp only [detect_drift_run (set_baseline st0 b) b cur rfl hbne hcne]
    rw [manual_device_mem _ _ hcd hdvne, hdv]
  · have h1 : deviceBase.rows ≠ [] := by simp [deviceBase]
    have h2 : deviceCur.rows ≠ [] := by simp [deviceCur]
    have hdv2 : (set_baseline initialMonitor deviceBase).baseline_stats.device_vals =
        deviceBase.rows.map (·.device_type) := by
      show (computeStats deviceBase).device_vals = _
      simp [computeStats, deviceBase]
    have hdv2ne : (set_baseline initialMonitor deviceBase).baseline_stats.device_vals ≠ [] := by
      rw [hdv2]
      simp [deviceBase]
    simp only [detect_drift_run (set_baseline initialMonitor deviceBase) deviceBase deviceCur
      rfl h1 h2]
    rw [manual_device_mem _ _ rfl hdv2ne, hdv2, htv]
    norm_num

/-- A one-row merged table carrying a `device_type` column. -/
def oneRowFrame : DriftFrame :=
  { hasUserAge := false, hasDeviceType := true, rows := [dRow "mobile"] }

/-- The empty merged table. -/
def emptyFrame : DriftFrame :=
  { hasUserAge := false, hasDeviceType := false, rows := [] }

/-- Witness for `detect_drift_device_type`: baselining a one-row table
against itself gives categorical score 0 and no report. -/
theorem detect_drift_device_type_witness :
    (detect_drift (set_baseline initialMonitor oneRowFrame) oneRowFrame).1.device_check =
      some { score := (0 : ℚ), drifted := decide ((3 : ℚ) / 10 < (0 : ℚ)) } ∧
    ("device_type" ∈
        (detect_drift (set_baseline initialMonitor oneRowFrame) oneRowFrame).1.drifted_features ↔
      (3 : ℚ) / 10 < (0 : ℚ)) ∧
    tvDist (deviceCur.rows.map (·.device_type)) (deviceBase.rows.map (·.device_type)) = 1 ∧
    "device_type" ∈
      (detect_drift (set_baseline initialMonitor deviceBase) deviceCur).1.drifted_features :=
  detect_drift_device_type initialMonitor oneRowFrame oneRowFrame
    (by simp [oneRowFrame]) (by simp [oneRowFrame]) rfl rfl 0 (tvDist_self _).symm

/-- **C4 counterexample.** `setBaseline` on the empty table does not put
the engine into the Baseline-Set state: a subsequent `detectDrift` on a
non-empty current table still returns the "no baseline" error result,
because `detect_drift` treats an empty stored baseline like an unset
one (`self.baseline_data is None or self.baseline_data.empty`). -/
theorem set_baseline_empty_cex :
    (detect_drift (set_baseline initialMonitor emptyFrame) oneRowFrame).1.error =
      some DriftError.noBaseline := by
  simp [detect_drift, set_baseline, emptyFrame]

/-- **C4 (amended).** After `setBaseline` with a **non-empty** table the
engine is in the Baseline-Set state: `detectDrift` on a non-empty
current table returns no error result, and a later `setBaseline` call
replaces the snapshot wholesale (data and statistics both taken from
the new table).  (`setBaseline` with an empty table instead leaves
`detectDrift` returning the "no baseline" error, per
`set_baseline_empty_cex`.) -/
theorem set_baseline_state_machine (st0 : MonitorState) (b cur b2 : DriftFrame)
    (hbne : b.rows ≠ []) (hcne : cur.rows ≠ []) :
    (detect_drift (set_baseline st0 b) cur).1.error = none ∧
    (set_baseline (set_baseline st0 b) b2).baseline_data = some b2 ∧
    (set_baseline (set_baseline st0 b) b2).baseline_stats = computeStats b2 := by
  refine ⟨?_, rfl, rfl⟩
  simp only [detect_drift_run (set_baseline st0 b) b cur rfl hbne hcne]

/-- Witness for `set_baseline_state_machine`: a one-row baseline,
re-baselined with the empty table. -/
theorem set_baseline_state_machine_witness :
    (detect_drift (set_baseline initialMonitor oneRowFrame) oneRowFrame).1.error = none ∧
    (set_baseline (set_baseline initialMonitor oneRowFrame) emptyFrame).baseline_data =
      some emptyFrame ∧
    (set_baseline (set_baseline initialMonitor oneRowFrame) emptyFrame).baseline_stats =
      computeStats emptyFrame :=
  set_baseline_state_machine initialMonitor oneRowFrame oneRowFrame emptyFrame
    (by simp [oneRowFrame]) (by simp [oneRowFrame])

/-- A drift alert used to exercise the alert-history accessor. -/
def c5Alert : DriftAlert := { severity := .medium, drifted_features := ["user_age"] }

/-- A monitor state whose alert history holds exactly one alert. -/
def c5State : MonitorState :=
  { baseline_data := none
    baseline_stats := { age_mean := none, age_var := none, device_vals := [], sample_size := 0 }
    drift_alerts := [c5Alert] }

/-- **C5 counterexample.** On a one-alert history, `getDriftAlerts(0)`
returns the whole history — the Python slice `[-0:]` is `[0:]` — not
the empty list the claim requires. -/
theorem get_drift_alerts_zero_cex :
    get_drift_alerts c5State 0 = [c5Alert] ∧ ([c5Alert] : List DriftAlert) ≠ [] :=
  ⟨rfl, by simp⟩

/-- **C5 (amended).** For every limit ≥ 1, `getDriftAlerts(limit)`
returns exactly the last `limit` alerts of the history (all of them
when the history is shorter), preserving the original order — the
returned list is a suffix of the history of length
`min limit (history length)`; `getDriftAlerts(0)`, however, returns the
entire history. -/
theorem get_drift_alerts_spec (st : MonitorState) (limit : ℕ) :
    (1 ≤ limit → ∃ pre, st.drift_alerts = pre ++ get_drift_alerts st limit ∧
      (get_drift_alerts st limit).length = min limit st.drift_alerts.length) ∧
    (limit = 0 → get_drift_alerts st limit = st.drift_alerts) := by
  constructor
  · intro hlim
    have h0 : ¬ limit = 0 := by omega
    unfold get_drift_alerts
    rw [if_neg h0]
    refine ⟨st.drift_alerts.take (st.drift_alerts.length - limit),
      (List.take_append_drop _ _).symm, ?_⟩
    rw [List.length_drop]
    omega
  · intro h0
    unfold get_drift_alerts
    rw [if_pos h0]

/-- Witness for `get_drift_alerts_spec` at the one-alert history and
limit 1. -/
theorem get_drift_alerts_spec_witness :
    (1 ≤ 1 → ∃ pre, c5State.drift_alerts = pre ++ get_drift_alerts c5State 1 ∧
      (get_drift_alerts c5State 1).length = min 1 c5State.drift_alerts.length) ∧
    ((1 : ℕ) = 0 → get_drift_alerts c5State 1 = c5State.drift_alerts) :=
  get_drift_alerts_spec c5State 1

/-- On a table compared against its own baseline statistics, neither
manual drift track fires. -/
theorem manual_self_no_drift (t : DriftFrame) :
    (manual_drift_detection (computeStats t) t).drifted_features = [] := by
  show featuresOf (ageCheckOf (computeStats t) t) (devCheckOf (computeStats t) t) = []
  have hage : ∀ c, ageCheckOf (computeStats t) t = some c → c.drifted = false := by
    intro c hc
    unfold ageCheckOf at hc
    split at hc
    · next hcond =>
        split at hc
        · next v hv =>
            split at hc
            · next hvpos =>
                obtain rfl := Option.some.inj hc
                have hmean : (computeStats t).age_mean.getD 0 =
                    qmean (t.rows.map (·.user_age)) := by
                  unfold computeStats
                  dsimp only
                  rw [if_pos hcond.1]
                  rfl
                dsimp only
                rw [hmean, sub_self]
                apply decide_eq_false
                intro hcontra
                nlinarith
            · exact absurd hc (by simp)
        · exact absurd hc (by simp)
    · exact absurd hc (by simp)
  have hdev : ∀ c, devCheckOf (computeStats t) t = some c → c.drifted = false := by
    intro c hc
    unfold devCheckOf at hc
    split at hc
    · next hcond =>
        obtain rfl := Option.some.inj hc
        have hvals : (computeStats t).device_vals = t.rows.map (·.device_type) := by
          unfold computeStats
          dsimp only
          rw [if_pos hcond.1]
        dsimp only
        rw [hvals, tvDist_self]
        apply decide_eq_false
        norm_num
    · exact absurd hc (by simp)
  unfold featuresOf
  rw [List.append_eq_nil]
  constructor
  · rcases hac : ageCheckOf (computeStats t) t with _ | c
    · rfl
    · dsimp only
      rw [hage c hac]
      rfl
  · rcases hdc : devCheckOf (computeStats t) t with _ | c
    · rfl
    · dsimp only
      rw [hdev c hdc]
      rfl

/-- **C6.** `setBaseline(t)` followed immediately by `detectDrift(t)`
on the same non-empty merged table reports no drift — neither the
numeric nor the categorical track fires on zero deviation from self —
and appends nothing to the drift-alert history. -/
theorem detect_drift_self (st0 : MonitorState) (t : DriftFrame) (htne : t.rows ≠ []) :
    (detect_drift (set_baseline st0 t) t).1.drift_detected = false ∧
    (detect_drift (set_baseline st0 t) t).1.drifted_features = [] ∧
    (detect_drift (set_baseline st0 t) t).2.drift_alerts = st0.drift_alerts := by
  have hman : (manual_drift_detection (set_baseline st0 t).baseline_stats t).drifted_features
      = [] := manual_self_no_drift t
  simp only [detect_drift_run (set_baseline st0 t) t t rfl htne htne]
  rw [hman]
  refine ⟨by simp, rfl, by simp [set_baseline]⟩

/-- Witness for `detect_drift_self` at a one-row table. -/
theorem detect_drift_self_witness :
    (detect_drift (set_baseline initialMonitor oneRowFrame) oneRowFrame).1.drift_detected
      = false ∧
    (detect_drift (set_baseline initialMonitor oneRowFrame) oneRowFrame).1.drifted_features
      = [] ∧
    (detect_drift (set_baseline initialMonitor oneRowFrame) oneRowFrame).2.drift_alerts =
      initialMonitor.drift_alerts :=
  detect_drift_self initialMonitor oneRowFrame (by simp [oneRowFrame])

/-- **C7.** `detectDrift` never raises on its two degenerate inputs:
called with no baseline set it returns the "no baseline" error result
with `drift_detected = false`, and called with an empty current table
(a non-empty baseline being set) it returns the "empty input" error
result with `drift_detected = false`; both leave the monitor state —
in particular the drift-alert history — unchanged. -/
theorem detect_drift_degenerate :
    (∀ (st : MonitorState) (cur : DriftFrame), st.baseline_data = none →
      detect_drift st cur =
        ({ error := some .noBaseline, drift_detected := false, drifted_features := [],
           age_check := none, device_check := none }, st)) ∧
    (∀ (st : MonitorState) (b cur : DriftFrame), st.baseline_data = some b →
      b.rows ≠ [] → cur.rows = [] →
      detect_drift st cur =
        ({ error := some .emptyInput, drift_detected := false, drifted_features := [],
           age_check := none, device_check := none }, st)) := by
  constructor
  · intro st cur hb
    unfold detect_drift
    rw [hb]
  · intro st b cur hb hbne hce
    unfold detect_drift
    rw [hb]
    dsimp only
    rw [if_neg hbne, if_pos hce]

/-- Witness for `detect_drift_degenerate`: the fresh monitor, and a
one-row baseline probed with the empty table. -/
theorem detect_drift_degenerate_witness :
    detect_drift initialMonitor oneRowFrame =
      ({ error := some .noBaseline, drift_detected := false, drifted_features := [],
         age_check := none, device_check := none }, initialMonitor) ∧
    detect_drift (set_baseline initialMonitor oneRowFrame) emptyFrame =
      ({ error := some .emptyInput, drift_detected := false, drifted_features := [],
         age_check := none, device_check := none },
       set_baseline initialMonitor oneRowFrame) :=
  ⟨detect_drift_degenerate.1 initialMonitor oneRowFrame rfl,
   detect_drift_degenerate.2 (set_baseline initialMonitor oneRowFrame) oneRowFrame emptyFrame
     rfl (by simp [oneRowFrame]) rfl⟩

/-- Witness for `validate_click_spike`: a click from a user with five
window entries against ten recorded rates of 1, where the spike
condition is satisfiable and fires. -/
theorem validate_click_spike_witness :
    (validate_click defaultConfig spikeState (clickAt 1)).2.historical_click_rates =
      [1, 1, 1, 1, 1, 1, 1, 1, 1, 1, ((6 : ℕ) : ℚ)] ∧
    (10 ≤ ([1, 1, 1, 1, 1, 1, 1, 1, 1, 1, ((6 : ℕ) : ℚ)] : List ℚ).length →
      ((∃ a ∈ (validate_click defaultConfig spikeState (clickAt 1)).1,
          a.alert_type = "click_spike") ↔
        (0 < Real.sqrt (((250 / 121 : ℚ)) : ℝ) ∧
          (3 : ℝ) < (((((6 : ℕ) : ℚ) - 16 / 11 : ℚ)) : ℝ) /
            Real.sqrt (((250 / 121 : ℚ)) : ℝ))) ∧
      ((∃ a ∈ (validate_click defaultConfig spikeState (clickAt 1)).1,
          a.alert_type = "click_spike") →
        ({ alert_type := "click_spike", severity := .medium,
           affected_events := [(clickAt 1).event_id],
           metadata := .spikeMeta (((6 : ℕ) : ℚ) - 16 / 11) (250 / 121)
             ((6 : ℕ) : ℚ) (16 / 11) } : ValidationAlert)
          ∈ (validate_click defaultConfig spikeState (clickAt 1)).1)) :=
  validate_click_spike spikeState (clickAt 1) 6
    (by norm_num [windowOf, spikeState, clickAt, List.dropWhile])
    [1, 1, 1, 1, 1, 1, 1, 1, 1, 1, ((6 : ℕ) : ℚ)]
    (by norm_num [spikeState])
    (16 / 11) (250 / 121)
    (by norm_num [qmean, lastN])
    (by norm_num [popVar, qmean, lastN])

/-- Witness for `validate_click_bot_traffic`: the fresh validator and a
single click, whose post-eviction window has one entry. -/
theorem validate_click_bot_traffic_witness :
    ((∃ a ∈ (validate_click defaultConfig initialValidator (clickAt 0)).1,
        a.alert_type = "bot_traffic") ↔ 10 < 1) ∧
    (10 < 1 →
      ({ alert_type := "bot_traffic", severity := .high,
         affected_events := [(clickAt 0).event_id],
         metadata := .botMeta (clickAt 0).user_id 1 60 } : ValidationAlert)
        ∈ (validate_click defaultConfig initialValidator (clickAt 0)).1) ∧
    (runValidator elevenClicks).1 =
      [{ alert_type := "bot_traffic", severity := .high, affected_events := ["e"],
         metadata := .botMeta "u" 11 60 }] ∧
    (∀ a ∈ (runValidator (elevenClicks.take 10)).1, a.alert_type ≠ "bot_traffic") :=
  validate_click_bot_traffic initialValidator (clickAt 0) 1
    (by norm_num [windowOf, initialValidator, clickAt, List.dropWhile])

/-- Unfolding of `campaign_uplift_analysis` on the successful path
(non-empty table, matched target campaign, truthy baseline id). -/
theorem campaign_uplift_analysis_run (t : CampaignTable) (A B : String)
    (h1 : t.rows ≠ [])
    (h2 : t.rows.filter (fun r => r.campaign_id = A) ≠ [])
    (hB : B ≠ "") :
    campaign_uplift_analysis t A (some B) =
      (let cdata := t.rows.filter (fun r => r.campaign_id = A)
       let bdata := t.rows.filter (fun r => r.campaign_id = B)
       let base : UpliftResult :=
         { error := none
           campaign_id := A
           total_impressions := cdata.length
           total_clicks := if t.hasClicked then (cdata.map (·.clicked)).sum else 0
           total_revenue := (cdata.map (·.revenue)).sum
           avg_revenue_per_impression := qmean (cdata.map (·.revenue))
           click_through_rate := if t.hasClicked then qmean (cdata.map (·.clicked)) else 0 }
       if bdata = [] then base
       else
         { base with
           baseline_campaign_id := some B
           baseline_avg_revenue := some (qmean (bdata.map (·.revenue)))
           uplift_absolute := some (qmean (cdata.map (·.revenue)) -
             qmean (bdata.map (·.revenue)))
           uplift_percentage := some
             (if 0 < qmean (bdata.map (·.revenue)) then
               (qmean (cdata.map (·.revenue)) / qmean (bdata.map (·.revenue)) - 1) * 100
             else 0) }) := by
  unfold campaign_uplift_analysis
  rw [if_neg h1, if_neg h2]
  dsimp only
  rw [if_neg hB]

/-- The table of the uplift scenario: campaign A has mean revenue 100,
campaign B has mean revenue 50. -/
def upliftTable : CampaignTable :=
  { hasClicked := true
    rows := [{ campaign_id := "A", clicked := 1, revenue := 100 },
             { campaign_id := "A", clicked := 0, revenue := 100 },
             { campaign_id := "B", clicked := 1, revenue := 50 }] }

/-- **C8.** With a matched baseline campaign B, `campaignUpliftAnalysis`
reports `uplift_percentage = (meanRevenue(A)/meanRevenue(B) - 1) * 100`,
and `0` when B's mean revenue is 0; with a supplied but unmatched B it
returns the target campaign's metrics with every uplift field absent
and no error; and on the A-mean-100 / B-mean-50 scenario the uplift
percentage is exactly 100. -/
theorem campaign_uplift_spec :
    (∀ (t : CampaignTable) (A B : String), t.rows ≠ [] →
      t.rows.filter (fun r => r.campaign_id = A) ≠ [] →
      B ≠ "" →
      t.rows.filter (fun r => r.campaign_id = B) ≠ [] →
      ((0 < qmean ((t.rows.filter (fun r => r.campaign_id = B)).map (·.revenue)) →
        (campaign_uplift_analysis t A (some B)).uplift_percentage =
          some ((qmean ((t.rows.filter (fun r => r.campaign_id = A)).map (·.revenue)) /
            qmean ((t.rows.filter (fun r => r.campaign_id = B)).map (·.revenue)) - 1) * 100)) ∧
       (qmean ((t.rows.filter (fun r => r.campaign_id = B)).map (·.revenue)) = 0 →
        (campaign_uplift_analysis t A (some B)).uplift_percentage = some 0) ∧
       (campaign_uplift_analysis t A (some B)).error = none)) ∧
    (∀ (t : CampaignTable) (A B : String), t.rows ≠ [] →
      t.rows.filter (fun r => r.campaign_id = A) ≠ [] →
      B ≠ "" →
      t.rows.filter (fun r => r.campaign_id = B) = [] →
      (campaign_uplift_analysis t A (some B)).error = none ∧
      (campaign_uplift_analysis t A (some B)).uplift_percentage = none ∧
      (campaign_uplift_analysis t A (some B)).uplift_absolute = none ∧
      (campaign_uplift_analysis t A (some B)).baseline_avg_revenue = none ∧
      (campaign_uplift_analysis t A (some B)).baseline_campaign_id = none ∧
      (campaign_uplift_analysis t A (some B)).total_impressions =
        (t.rows.filter (fun r => r.campaign_id = A)).length ∧
      (campaign_uplift_analysis t A (some B)).total_revenue =
        ((t.rows.filter (fun r => r.campaign_id = A)).map (·.revenue)).sum ∧
      (campaign_uplift_analysis t A (some B)).avg_revenue_per_impression =
        qmean ((t.rows.filter (fun r => r.campaign_id = A)).map (·.revenue))) ∧
    (campaign_uplift_analysis upliftTable "A" (some "B")).uplift_percentage = some 100 := by
  refine ⟨?_, ?_, ?_⟩
  · intro t A B h1 h2 hB hbne
    rw [campaign_uplift_analysis_run t A B h1 h2 hB]
    dsimp only
    rw [if_neg hbne]
    refine ⟨fun hbm => ?_, fun h0 => ?_, rfl⟩
    · dsimp only
      rw [if_pos hbm]
    · dsimp only
      rw [if_neg (by rw [h0]; exact lt_irrefl 0)]
  · intro t A B h1 h2 hB hbe
    rw [campaign_uplift_analysis_run t A B h1 h2 hB]
    dsimp only
    rw [if_pos hbe]
    exact ⟨rfl, rfl, rfl, rfl, rfl, rfl, rfl, rfl⟩
  · have hfA : upliftTable.rows.filter (fun r => r.campaign_id = "A") =
        [{ campaign_id := "A", clicked := 1, revenue := 100 },
         { campaign_id := "A", clicked := 0, revenue := 100 }] := rfl
    have hfB : upliftTable.rows.filter (fun r => r.campaign_id = "B") =
        [{ campaign_id := "B", clicked := 1, revenue := 50 }] := rfl
    rw [campaign_uplift_analysis_run upliftTable "A" "B" (by simp [upliftTable])
      (by rw [hfA]; simp) (by simp)]
    dsimp only
    rw [if_neg (by rw [hfB]; simp)]
    dsimp only
    rw [hfA, hfB]
    norm_num [qmean]

/-- Witness for `campaign_uplift_spec`: the scenario table itself, for
both a matched baseline (part 1) and an unmatched one (part 2). -/
theorem campaign_uplift_spec_witness :
    ((0 < qmean ((upliftTable.rows.filter (fun r => r.campaign_id = "B")).map (·.revenue)) →
      (campaign_uplift_analysis upliftTable "A" (some "B")).uplift_percentage =
        some ((qmean ((upliftTable.rows.filter
            (fun r => r.campaign_id = "A")).map (·.revenue)) /
          qmean ((upliftTable.rows.filter
            (fun r => r.campaign_id = "B")).map (·.revenue)) - 1) * 100)) ∧
     (qmean ((upliftTable.rows.filter (fun r => r.campaign_id = "B")).map (·.revenue)) = 0 →
      (campaign_uplift_analysis upliftTable "A" (some "B")).uplift_percentage = some 0) ∧
     (campaign_uplift_analysis upliftTable "A" (some "B")).error = none) ∧
    ((campaign_uplift_analysis upliftTable "A" (some "C")).error = none ∧
     (campaign_uplift_analysis upliftTable "A" (some "C")).uplift_percentage = none ∧
     (campaign_uplift_analysis upliftTable "A" (some "C")).uplift_absolute = none ∧
     (campaign_uplift_analysis upliftTable "A" (some "C")).baseline_avg_revenue = none ∧
     (campaign_uplift_analysis upliftTable "A" (some "C")).baseline_campaign_id = none ∧
     (campaign_uplift_analysis upliftTable "A" (some "C")).total_impressions =
       (upliftTable.rows.filter (fun r => r.campaign_id = "A")).length ∧
     (campaign_uplift_analysis upliftTable "A" (some "C")).total_revenue =
       ((upliftTable.rows.filter (fun r => r.campaign_id = "A")).map (·.revenue)).sum ∧
     (campaign_uplift_analysis upliftTable "A" (some "C")).avg_revenue_per_impression =
       qmean ((upliftTable.rows.filter (fun r => r.campaign_id = "A")).map (·.revenue))) :=
  ⟨campaign_uplift_spec.1 upliftTable "A" "B" (by simp [upliftTable])
      (by simp [upliftTable]) (by simp) (by simp [upliftTable]),
   campaign_uplift_spec.2.1 upliftTable "A" "C" (by simp [upliftTable])
      (by simp [upliftTable]) (by simp) (by simp [upliftTable])⟩

/-- **C9.** `prepareData` returns an empty table on empty impressions;
every output row's `clicked` is 0 when there are no clicks or no click
matches any impression; and every output row carries a defined
`revenue` equal to the summed revenue of its matching conversions
(hence 0 when none match). -/
theorem prepare_data_spec (imps : List ImpressionRow) (clicks : List ClickRow)
    (convs : List ConversionRow) :
    prepare_data [] clicks convs = [] ∧
    ((clicks = [] ∨ ∀ c ∈ clicks, ∀ i ∈ imps, c.impression_id ≠ i.event_id) →
      ∀ r ∈ prepare_data imps clicks convs, r.clicked = 0) ∧
    (∀ r ∈ prepare_data imps clicks convs,
      (∀ cv ∈ convs, cv.impression_id ≠ r.event_id) → r.revenue = 0) ∧
    (∀ r ∈ prepare_data imps clicks convs,
      r.revenue =
        ((convs.filter (fun cv => cv.impression_id = r.event_id)).map (·.revenue)).sum) := by
  have hrev : ∀ r ∈ prepare_data imps clicks convs,
      r.revenue =
        ((convs.filter (fun cv => cv.impression_id = r.event_id)).map (·.revenue)).sum := by
    intro r hr
    unfold prepare_data at hr
    obtain ⟨i, hi, rfl⟩ := List.mem_map.mp hr
    show revenueOf imps convs i = _
    unfold revenueOf
    by_cases hc : convs ≠ [] ∧ imps ≠ []
    · rw [if_pos hc]
      dsimp only
      split
      · next hm =>
          rw [hm]
          rfl
      · rfl
    · have himps : imps ≠ [] := List.ne_nil_of_mem hi
      have hconvs : convs = [] := by
        by_contra hcv
        exact hc ⟨hcv, himps⟩
      rw [if_neg hc]
      subst hconvs
      simp
  refine ⟨rfl, ?_, ?_, hrev⟩
  · intro h r hr
    unfold prepare_data at hr
    obtain ⟨i, hi, rfl⟩ := List.mem_map.mp hr
    show clickedOf imps clicks i = 0
    unfold clickedOf
    rcases h with h | h
    · rw [if_neg]
      simp [h]
    · by_cases hc : clicks ≠ [] ∧ imps ≠ []
      · rw [if_pos hc, if_neg]
        intro hmem
        obtain ⟨c, hcmem, hceq⟩ := List.mem_map.mp hmem
        exact (h c hcmem i hi) hceq
      · rw [if_neg hc]
  · intro r hr hnone
    rw [hrev r hr]
    rw [List.filter_eq_nil_iff.mpr (fun cv hcv => by simp [hnone cv hcv])]
    rfl

/-- Witness for `prepare_data_spec`: one impression, no clicks, one
non-matching conversion. -/
theorem prepare_data_spec_witness :
    prepare_data [] [] [(⟨"i2", 5⟩ : ConversionRow)] = [] ∧
    ((([] : List ClickRow) = [] ∨ ∀ c ∈ ([] : List ClickRow),
        ∀ i ∈ [(⟨"i1"⟩ : ImpressionRow)], c.impression_id ≠ i.event_id) →
      ∀ r ∈ prepare_data [(⟨"i1"⟩ : ImpressionRow)] [] [(⟨"i2", 5⟩ : ConversionRow)],
        r.clicked = 0) ∧
    (∀ r ∈ prepare_data [(⟨"i1"⟩ : ImpressionRow)] [] [(⟨"i2", 5⟩ : ConversionRow)],
      (∀ cv ∈ [(⟨"i2", 5⟩ : ConversionRow)], cv.impression_id ≠ r.event_id) →
        r.revenue = 0) ∧
    (∀ r ∈ prepare_data [(⟨"i1"⟩ : ImpressionRow)] [] [(⟨"i2", 5⟩ : ConversionRow)],
      r.revenue = (([(⟨"i2", 5⟩ : ConversionRow)].filter
        (fun cv => cv.impression_id = r.event_id)).map (·.revenue)).sum) :=
  prepare_data_spec [(⟨"i1"⟩ : ImpressionRow)] [] [(⟨"i2", 5⟩ : ConversionRow)]

/-- **C10.** On a table with `campaign_id` and `revenue` columns but no
`clicked` column, `campaignUpliftAnalysis` on a matched campaign
succeeds — no error — and reports `total_clicks = 0` and
`click_through_rate = 0` instead of failing on the missing column. -/
theorem campaign_uplift_no_clicked (t : CampaignTable) (cid : String)
    (hcl : t.hasClicked = false) (h1 : t.rows ≠ [])
    (h2 : t.rows.filter (fun r => r.campaign_id = cid) ≠ []) :
    (campaign_uplift_analysis t cid none).error = none ∧
    (campaign_uplift_analysis t cid none).total_clicks = 0 ∧
    (campaign_uplift_analysis t cid none).click_through_rate = 0 := by
  unfold campaign_uplift_analysis
  rw [if_neg h1, if_neg h2]
  dsimp only
  simp [hcl]

/-- A one-row table without the `clicked` column. -/
def noClickTable : CampaignTable :=
  { hasClicked := false
    rows := [{ campaign_id := "A", clicked := 0, revenue := 10 }] }

/-- Witness for `campaign_uplift_no_clicked` at a one-row table. -/
theorem campaign_uplift_no_clicked_witness :
    (campaign_uplift_analysis noClickTable "A" none).error = none ∧
    (campaign_uplift_analysis noClickTable "A" none).total_clicks = 0 ∧
    (campaign_uplift_analysis noClickTable "A" none).click_through_rate = 0 :=
  campaign_uplift_no_clicked noClickTable "A" rfl (by simp [noClickTable])
    (by simp [noClickTable])

end AdSentinel
